import Mathlib

/-!
Verification of `pynamodb/exceptions.py` against its specification.

The module is embedded shallowly: Python objects that the code inspects by
duck typing are modelled by an explicit value type `PyVal`; attribute-bearing
objects (exceptions used as `cause`) by `PyObject`; operations that can raise
are modelled in `Except String` (the error string naming the Python exception
that would be raised); Python's `str.format` (with `\x7b\x7b`-escapes,
auto-numbered positional fields and keyword fields, as used by this module)
is implemented over lists of characters.
-/

set_option autoImplicit false
set_option maxRecDepth 100000

namespace PynamoDB

/-- A Python value, as far as this module inspects values: `None`, booleans,
integers, strings and string-keyed dictionaries. -/
inductive PyVal where
  | pyNone
  | pyBool (b : Bool)
  | pyInt (n : Int)
  | pyStr (s : String)
  | pyDict (entries : List (String × PyVal))

/-- A Python object with named attributes (e.g. an exception instance used as
a `cause`): modelled by its attribute dictionary. -/
structure PyObject where
  attrs : List (String × PyVal)

/-- Python `d.get(key, default)`: on a dictionary, the stored value when the
key is present, otherwise `default`; on any non-dictionary value the
attribute lookup of `get` itself fails with `AttributeError`. -/
def PyVal.get : PyVal → String → PyVal → Except String PyVal
  | .pyDict es, key, dflt => .ok ((es.lookup key).getD dflt)
  | _, _, _ => .error "AttributeError: object has no attribute get"

/-- `getattr(cause, 'response', {})`: `None` has no `response` attribute, so
an absent cause yields the default `{}`; an object yields its `response`
attribute when present, otherwise `{}`. Never raises. -/
def getattr_response : Option PyObject → PyVal
  | none => .pyDict []
  | some obj => (obj.attrs.lookup "response").getD (.pyDict [])

/-- The state of a `PynamoDBException` instance after `__init__`: the message
and the (optional) wrapped cause. These are the only fields the constructor
sets. -/
structure PynamoDBException where
  msg : String
  cause : Option PyObject

/-- `PynamoDBException.cause_response_code`:
`getattr(self.cause, 'response', \x7b\x7d).get('Error', \x7b\x7d).get('Code')`. -/
def PynamoDBException.cause_response_code (e : PynamoDBException) : Except String PyVal := do
  let r ← (getattr_response e.cause).get "Error" (.pyDict [])
  r.get "Code" .pyNone

/-- `PynamoDBException.cause_response_message`:
`getattr(self.cause, 'response', \x7b\x7d).get('Error', \x7b\x7d).get('Message')`. -/
def PynamoDBException.cause_response_message (e : PynamoDBException) : Except String PyVal := do
  let r ← (getattr_response e.cause).get "Error" (.pyDict [])
  r.get "Message" .pyNone

/-- The classes declared by the module, together with the built-in Python
classes they derive from (`Exception`, `TypeError`, `ValueError`) and
botocore's `ClientError`. -/
inductive PyClass where
  | Exception
  | TypeError
  | ValueError
  | ClientError
  | PynamoDBException
  | PynamoDBConnectionError
  | DeleteError
  | QueryError
  | ScanError
  | PutError
  | UpdateError
  | GetError
  | TableError
  | DoesNotExist
  | TableDoesNotExist
  | TransactWriteError
  | TransactGetError
  | InvalidStateError
  | AttributeDeserializationError
  | AttributeNullError
  | VerboseClientError
deriving DecidableEq, BEq

/-- The direct superclass of each class, read off the `class C(B):` headers of
the module (`Exception` is taken as the root). -/
def superOf : PyClass → Option PyClass
  | .Exception => none
  | .TypeError => some .Exception
  | .ValueError => some .Exception
  | .ClientError => some .Exception
  | .PynamoDBException => some .Exception
  | .PynamoDBConnectionError => some .PynamoDBException
  | .DeleteError => some .PynamoDBConnectionError
  | .QueryError => some .PynamoDBConnectionError
  | .ScanError => some .PynamoDBConnectionError
  | .PutError => some .PynamoDBConnectionError
  | .UpdateError => some .PynamoDBConnectionError
  | .GetError => some .PynamoDBConnectionError
  | .TableError => some .PynamoDBConnectionError
  | .DoesNotExist => some .PynamoDBException
  | .TableDoesNotExist => some .PynamoDBException
  | .TransactWriteError => some .PynamoDBException
  | .TransactGetError => some .PynamoDBException
  | .InvalidStateError => some .PynamoDBException
  | .AttributeDeserializationError => some .TypeError
  | .AttributeNullError => some .ValueError
  | .VerboseClientError => some .ClientError

/-- The `msg = "..."` class attribute assigned directly in each class body
(`none` when the body assigns no `msg`; on `PynamoDBException` itself `msg`
is only annotated, never assigned, so it contributes no class attribute). -/
def ownMsg : PyClass → Option String
  | .PynamoDBConnectionError => some "Connection Error"
  | .DeleteError => some "Error deleting item"
  | .QueryError => some "Error performing query"
  | .ScanError => some "Error performing scan"
  | .PutError => some "Error putting item"
  | .UpdateError => some "Error updating item"
  | .GetError => some "Error getting item"
  | .TableError => some "Error performing a table operation"
  | .DoesNotExist => some "Item does not exist"
  | .InvalidStateError => some "Operation in invalid state"
  | _ => none

/-- Walk at most `fuel` steps up the superclass chain collecting the class
and its ancestors (the hierarchy has depth at most 4, so fuel 10 is exact). -/
def ancestorsAux : Nat → Option PyClass → List PyClass
  | 0, _ => []
  | _, none => []
  | n + 1, some c => c :: ancestorsAux n (superOf c)

/-- The method-resolution order of a class: itself followed by its
superclasses (single inheritance). -/
def ancestors (c : PyClass) : List PyClass :=
  ancestorsAux 10 (some c)

/-- Python `issubclass(c, d)` (reflexive): `d` occurs on `c`'s superclass
chain. An `except D` handler catches an instance of `C` iff
`isSubclass C D`. -/
def isSubclass (c d : PyClass) : Bool :=
  (ancestors c).contains d

/-- Python class-attribute lookup of `msg` along the superclass chain:
the first class in the MRO that assigns `msg` supplies the value; `none`
when no ancestor assigns it (so reading `self.msg` raises
`AttributeError`). -/
def classMsg (c : PyClass) : Option String :=
  (ancestors c).findSome? ownMsg

/-- `PynamoDBException.__init__(self, msg=None, cause=None)`:
`self.msg = msg if msg is not None else self.msg` — reading `self.msg` on a
fresh instance falls back to the class attribute, raising `AttributeError`
when no class on the chain assigns one — then `self.cause = cause`. -/
def PynamoDBException.construct (cls : PyClass) (msg : Option String)
    (cause : Option PyObject) : Except String PynamoDBException :=
  match msg with
  | some m => .ok ⟨m, cause⟩
  | none =>
    match classMsg cls with
    | some d => .ok ⟨d, cause⟩
    | none => .error "AttributeError: msg"

mutual

/-- Python `str.format` over the template's characters: `\x7b\x7b` and
`\x7d\x7d` are escapes for literal braces, `\x7b` opens a replacement field
(parsed by `fmtField`), a lone `\x7d` is a `ValueError`, and every other
character is copied. `pos` are the remaining positional arguments (Python
auto-numbering), `kw` the keyword arguments; `none` models the call
raising. -/
def fmtMain : List Char → List String → List (String × String) → Option (List Char)
  | [], _, _ => some []
  | '{' :: '{' :: rest, pos, kw => (fmtMain rest pos kw).map (fun t => '{' :: t)
  | '}' :: '}' :: rest, pos, kw => (fmtMain rest pos kw).map (fun t => '}' :: t)
  | '{' :: rest, pos, kw => fmtField rest [] pos kw
  | '}' :: _, _, _ => none
  | c :: rest, pos, kw => (fmtMain rest pos kw).map (fun t => c :: t)

/-- Parse a replacement field up to its closing `\x7d` (accumulating the
field name in reverse in `acc`): an empty name consumes the next positional
argument (`IndexError`, i.e. `none`, when exhausted), a non-empty name is
looked up among the keyword arguments (`KeyError`, i.e. `none`, when
absent); an unterminated field is a `ValueError`. The argument's characters
are spliced in and formatting resumes. -/
def fmtField : List Char → List Char → List String → List (String × String) →
    Option (List Char)
  | [], _, _, _ => none
  | '}' :: rest, acc, pos, kw =>
    if acc.isEmpty then
      match pos with
      | [] => none
      | v :: pos2 => (fmtMain rest pos2 kw).map (fun t => v.data ++ t)
    else
      match kw.lookup (String.mk acc.reverse) with
      | some v => (fmtMain rest pos kw).map (fun t => v.data ++ t)
      | none => none
  | c :: rest, acc, pos, kw => fmtField rest (c :: acc) pos kw

end

/-- Python `template.format(*pos, **kw)` on a template string, for the format
features this module uses. -/
def pyFormat (template : String) (pos : List String)
    (kw : List (String × String)) : Option String :=
  (fmtMain template.data pos kw).map String.mk

/-- `TableDoesNotExist.__init__(self, table_name)`:
`msg = "Table does not exist: \x60\x7b\x7d\x60".format(table_name)` followed by
`super().__init__(msg)`. -/
def TableDoesNotExist.construct (table_name : String) :
    Except String PynamoDBException :=
  match pyFormat "Table does not exist: `\x7b\x7d`" [table_name] [] with
  | some m => PynamoDBException.construct .TableDoesNotExist (some m) none
  | none => .error "format error"

/-- The state of an `AttributeDeserializationError` (a `TypeError`): the sole
datum is the message passed to `TypeError.__init__`. -/
structure AttributeDeserializationError where
  msg : String

/-- `AttributeDeserializationError.__init__(self, attr_name, attr_type)`:
`msg = "Cannot deserialize \x27\x7b\x7d\x27 attribute from type: \x7b\x7d".format(attr_name, attr_type)`
then `super().__init__(msg)`. -/
def AttributeDeserializationError.construct (attr_name attr_type : String) :
    Option AttributeDeserializationError :=
  (pyFormat "Cannot deserialize \x27\x7b\x7d\x27 attribute from type: \x7b\x7d"
    [attr_name, attr_type] []).map (fun m => ⟨m⟩)

/-- The state of an `AttributeNullError` (a `ValueError`): its `__init__`
sets only `self.attr_path = attr_name`. -/
structure AttributeNullError where
  attr_path : String

/-- `AttributeNullError.__str__`: renders
`f"Attribute \x27\x7battr_path\x7d\x27 cannot be None"` from the current
`attr_path` on every call (nothing is cached). -/
def AttributeNullError.str (e : AttributeNullError) : String :=
  "Attribute \x27" ++ e.attr_path ++ "\x27 cannot be None"

/-- `AttributeNullError.prepend_path(self, attr_name)`:
`self.attr_path = attr_name + '.' + self.attr_path`. -/
def AttributeNullError.prepend_path (e : AttributeNullError)
    (attr_name : String) : AttributeNullError :=
  ⟨attr_name ++ "." ++ e.attr_path⟩

/-- `str(v)` as Python's `format` applies it to the `request_id` /
`table_name` values drawn from `verbose_properties`: the values that occur
are strings or the absent-key `None`, rendered as the literal `"None"`. -/
def pyStrOfOpt : Option String → String
  | none => "None"
  | some s => s

/-- The state of a `VerboseClientError` after `__init__`: the formatted
`MSG_TEMPLATE` plus the two arguments forwarded to
`botocore.exceptions.ClientError.__init__`. -/
structure VerboseClientError where
  MSG_TEMPLATE : String
  error_response : PyVal
  operation_name : String

/-- `VerboseClientError.__init__(self, error_response, operation_name,
verbose_properties=None)`: a falsy `verbose_properties` is replaced by
`\x7b\x7d`; `self.MSG_TEMPLATE` is the doubled-brace template with
`request_id=verbose_properties.get('request_id')` and
`table_name=verbose_properties.get('table_name')` substituted by `format`;
then `super().__init__(error_response, operation_name)`. -/
def VerboseClientError.construct (error_response : PyVal)
    (operation_name : String)
    (verbose_properties : Option (List (String × String))) :
    Option VerboseClientError :=
  let vp := verbose_properties.getD []
  (pyFormat
    "An error occurred (\x7b\x7berror_code\x7d\x7d) on request (\x7brequest_id\x7d) on table (\x7btable_name\x7d) when calling the \x7b\x7boperation_name\x7d\x7d operation: \x7b\x7berror_message\x7d\x7d"
    []
    [("request_id", pyStrOfOpt (vp.lookup "request_id")),
     ("table_name", pyStrOfOpt (vp.lookup "table_name"))]).map
    (fun t => ⟨t, error_response, operation_name⟩)

/-- The shapes of `cause` on which the accessor chain
`getattr(cause, 'response', \x7b\x7d).get('Error', \x7b\x7d).get(...)` meets
only dictionaries: `cause` absent, or `response` absent, or `response` a
dictionary whose `Error` entry, when present, is itself a dictionary. -/
def safeCauseShape : Option PyObject → Bool
  | none => true
  | some obj =>
    match obj.attrs.lookup "response" with
    | none => true
    | some (.pyDict es) =>
      match es.lookup "Error" with
      | none => true
      | some (.pyDict _) => true
      | some _ => false
    | some _ => false

theorem string_append_empty (s : String) : s ++ "" = s := by
  cases s with
  | mk l =>
    show String.mk (l ++ []) = String.mk l
    rw [List.append_nil]

theorem except_bind_ok {α β ε : Type} (x : α) (f : α → Except ε β) :
    (Except.ok x : Except ε α) >>= f = f x := rfl

theorem safeCauseShape_some (obj : PyObject) :
    safeCauseShape (some obj) =
      (match obj.attrs.lookup "response" with
       | none => true
       | some (.pyDict es) =>
         match es.lookup "Error" with
         | none => true
         | some (.pyDict _) => true
         | some _ => false
       | some _ => false) := rfl

end PynamoDB

namespace PynamoDB

/-- C1: on a well-shaped `cause`, `cause_response_code` and
`cause_response_message` return `None` when the cause is absent, when it
lacks a `response` attribute, or when the nested `Error.Code` /
`Error.Message` keys are missing, and return the nested values, unmodified,
when the full `\x7bError: \x7bCode, Message\x7d\x7d` structure is
present. -/
theorem C1_cause_response_accessors (m : String) (obj : PyObject) :
    ((⟨m, none⟩ : PynamoDBException).cause_response_code = .ok .pyNone
      ∧ (⟨m, none⟩ : PynamoDBException).cause_response_message = .ok .pyNone)
  ∧ (obj.attrs.lookup "response" = none →
      (⟨m, some obj⟩ : PynamoDBException).cause_response_code = .ok .pyNone
      ∧ (⟨m, some obj⟩ : PynamoDBException).cause_response_message = .ok .pyNone)
  ∧ (∀ es, obj.attrs.lookup "response" = some (.pyDict es) →
      es.lookup "Error" = none →
      (⟨m, some obj⟩ : PynamoDBException).cause_response_code = .ok .pyNone
      ∧ (⟨m, some obj⟩ : PynamoDBException).cause_response_message = .ok .pyNone)
  ∧ (∀ es es2, obj.attrs.lookup "response" = some (.pyDict es) →
      es.lookup "Error" = some (.pyDict es2) →
      (es2.lookup "Code" = none →
        (⟨m, some obj⟩ : PynamoDBException).cause_response_code = .ok .pyNone)
      ∧ (es2.lookup "Message" = none →
        (⟨m, some obj⟩ : PynamoDBException).cause_response_message = .ok .pyNone)
      ∧ (∀ v, es2.lookup "Code" = some v →
        (⟨m, some obj⟩ : PynamoDBException).cause_response_code = .ok v)
      ∧ (∀ v, es2.lookup "Message" = some v →
        (⟨m, some obj⟩ : PynamoDBException).cause_response_message = .ok v)) := by
  refine ⟨⟨rfl, rfl⟩, fun h => ?_, fun es h h2 => ?_, fun es es2 h h2 => ?_⟩
  · constructor <;>
      simp [PynamoDBException.cause_response_code,
        PynamoDBException.cause_response_message, getattr_response, h,
        PyVal.get, except_bind_ok]
  · constructor <;>
      simp [PynamoDBException.cause_response_code,
        PynamoDBException.cause_response_message, getattr_response, h, h2,
        PyVal.get, except_bind_ok]
  · refine ⟨fun h3 => ?_, fun h3 => ?_, fun v h3 => ?_, fun v h3 => ?_⟩ <;>
      simp [PynamoDBException.cause_response_code,
        PynamoDBException.cause_response_message, getattr_response, h, h2,
        h3, PyVal.get, except_bind_ok]

/-- C1 witness: at a concrete fully populated cause, the accessors return the
nested `Code` and `Message` values. -/
theorem C1_cause_response_accessors_witness :
    (⟨"m", some ⟨[("response", .pyDict [("Error",
        .pyDict [("Code", .pyStr "ConditionalCheckFailedException"),
                 ("Message", .pyStr "The conditional request failed")])])]⟩⟩ :
      PynamoDBException).cause_response_code
        = .ok (.pyStr "ConditionalCheckFailedException") :=
  (((C1_cause_response_accessors "m"
      ⟨[("response", .pyDict [("Error",
          .pyDict [("Code", .pyStr "ConditionalCheckFailedException"),
                   ("Message", .pyStr "The conditional request failed")])])]⟩).2.2.2
      [("Error", .pyDict [("Code", .pyStr "ConditionalCheckFailedException"),
          ("Message", .pyStr "The conditional request failed")])]
      [("Code", .pyStr "ConditionalCheckFailedException"),
       ("Message", .pyStr "The conditional request failed")] rfl rfl).2.2.1
    (.pyStr "ConditionalCheckFailedException") rfl)

/-- C2 counterexample: a cause whose `response` attribute is not a
dictionary makes both accessors raise (`AttributeError` on `.get`), so they
do not degrade to `None` on every malformed shape. -/
theorem C2_counterexample_nondict_response_raises :
    (⟨"m", some ⟨[("response", .pyInt 0)]⟩⟩ :
        PynamoDBException).cause_response_code
      = .error "AttributeError: object has no attribute get"
  ∧ (⟨"m", some ⟨[("response", .pyInt 0)]⟩⟩ :
        PynamoDBException).cause_response_message
      = .error "AttributeError: object has no attribute get" :=
  ⟨rfl, rfl⟩

/-- C2 amended: the accessors never raise on a `safeCauseShape` cause —
absent cause, absent `response`, or a dictionary `response` whose `Error`
entry, when present, is a dictionary; on such shapes any missing key
degrades to `None`. When `response` (or its `Error` entry) is present but
not a dictionary, the `.get` chain raises `AttributeError`. -/
theorem C2_amended_safe_shapes_never_raise (m : String)
    (cause : Option PyObject) (h : safeCauseShape cause = true) :
    ((⟨m, cause⟩ : PynamoDBException).cause_response_code).toOption.isSome
  ∧ ((⟨m, cause⟩ : PynamoDBException).cause_response_message).toOption.isSome := by
  match cause with
  | none => exact ⟨rfl, rfl⟩
  | some obj =>
    rw [safeCauseShape_some] at h
    constructor <;>
      · simp only [PynamoDBException.cause_response_code,
          PynamoDBException.cause_response_message, getattr_response]
        rcases h1 : obj.attrs.lookup "response" with _ | r
        · simp [h1, PyVal.get, except_bind_ok, Except.toOption]
        · rw [h1] at h
          cases r with
          | pyDict es =>
            have h3 : (match es.lookup "Error" with
                       | none => true
                       | some (.pyDict _) => true
                       | some _ => false) = true := h
            rcases h2 : es.lookup "Error" with _ | e
            · simp [h2, PyVal.get, except_bind_ok, Except.toOption]
            · rw [h2] at h3
              cases e with
              | pyDict es2 =>
                simp [h2, PyVal.get, except_bind_ok, Except.toOption]
              | pyNone => exact Bool.noConfusion h3
              | pyBool b => exact Bool.noConfusion h3
              | pyInt n => exact Bool.noConfusion h3
              | pyStr s => exact Bool.noConfusion h3
          | pyNone => exact Bool.noConfusion h
          | pyBool b => exact Bool.noConfusion h
          | pyInt n => exact Bool.noConfusion h
          | pyStr s => exact Bool.noConfusion h

/-- C2 amended witness: at a concrete cause with a dictionary `response`
lacking the `Error` key, both accessors succeed. -/
theorem C2_amended_safe_shapes_never_raise_witness :
    ((⟨"m", some ⟨[("response", .pyDict [])]⟩⟩ :
        PynamoDBException).cause_response_code).toOption.isSome
  ∧ ((⟨"m", some ⟨[("response", .pyDict [])]⟩⟩ :
        PynamoDBException).cause_response_message).toOption.isSome :=
  C2_amended_safe_shapes_never_raise "m" _ rfl

/-- C3: the message template built at construction of `VerboseClientError`
is exactly `An error occurred (\x7berror_code\x7d) on request (<request_id>)
on table (<table_name>) when calling the \x7boperation_name\x7d operation:
\x7berror_message\x7d`, with `request_id` and `table_name` substituted once
at construction from `verbose_properties` (the literal `None` when the
dictionary is absent or lacks the key) while `error_code`,
`operation_name` and `error_message` remain literal placeholders; the
wrapped arguments are forwarded unchanged. -/
theorem C3_verbose_msg_template (er : PyVal) (op : String)
    (vp : Option (List (String × String))) :
    VerboseClientError.construct er op vp =
      some ⟨"An error occurred (\x7berror_code\x7d) on request (" ++
            pyStrOfOpt ((vp.getD []).lookup "request_id") ++
            ") on table (" ++
            pyStrOfOpt ((vp.getD []).lookup "table_name") ++
            ") when calling the \x7boperation_name\x7d operation: \x7berror_message\x7d",
            er, op⟩
  ∧ VerboseClientError.construct er op none =
      some ⟨"An error occurred (\x7berror_code\x7d) on request (None) on table (None) when calling the \x7boperation_name\x7d operation: \x7berror_message\x7d",
            er, op⟩ := by
  constructor
  · have h : VerboseClientError.construct er op vp =
        some ⟨"An error occurred (\x7berror_code\x7d) on request (" ++
          (pyStrOfOpt ((vp.getD []).lookup "request_id") ++
          (") on table (" ++
          (pyStrOfOpt ((vp.getD []).lookup "table_name") ++
          ") when calling the \x7boperation_name\x7d operation: \x7berror_message\x7d"))),
          er, op⟩ := rfl
    rw [h]
    simp [String.append_assoc]
  · rfl

/-- C7: `TableDoesNotExist(table_name)` constructs successfully with message
exactly `` Table does not exist: `<table_name>` `` (the name wrapped in
backticks) and no other state (`cause` is `None`, the name is not stored
separately); in particular for the name `Users`. -/
theorem C7_table_does_not_exist_message (n : String) :
    TableDoesNotExist.construct n =
      .ok ⟨"Table does not exist: `" ++ n ++ "`", none⟩
  ∧ TableDoesNotExist.construct "Users" =
      .ok ⟨"Table does not exist: `Users`", none⟩ := by
  constructor
  · have h : TableDoesNotExist.construct n =
        .ok ⟨"Table does not exist: `" ++ (n ++ "`"), none⟩ := rfl
    rw [h]
    simp [String.append_assoc]
  · rfl

/-- C8: `AttributeDeserializationError(attr_name, attr_type)` constructs
successfully with message exactly
`Cannot deserialize \x27<attr_name>\x27 attribute from type: <attr_type>`,
and the message is the entire state of the instance; in particular for
`("age", "S")`. -/
theorem C8_attribute_deserialization_message (a t : String) :
    AttributeDeserializationError.construct a t =
      some ⟨"Cannot deserialize \x27" ++ a ++ "\x27 attribute from type: " ++ t⟩
  ∧ AttributeDeserializationError.construct "age" "S" =
      some ⟨"Cannot deserialize \x27age\x27 attribute from type: S"⟩ := by
  constructor
  · have h : AttributeDeserializationError.construct a t =
        some ⟨"Cannot deserialize \x27" ++
          (a ++ ("\x27 attribute from type: " ++ (t ++ "")))⟩ := rfl
    rw [h]
    simp [String.append_assoc, string_append_empty]
  · rfl

theorem intercalate_go_append (x : String) :
    ∀ (l : List String) (acc : String),
      String.intercalate.go acc "." (l ++ [x]) =
        String.intercalate.go acc "." l ++ "." ++ x
  | [], _ => rfl
  | b :: l, acc => intercalate_go_append x l (acc ++ "." ++ b)

theorem intercalate_dot_snoc (l : List String) (p s : String) :
    String.intercalate "." (l ++ [p ++ "." ++ s]) =
      String.intercalate "." ((l ++ [p]) ++ [s]) := by
  cases l with
  | nil => rfl
  | cons b l2 =>
    show String.intercalate.go b "." (l2 ++ [p ++ "." ++ s]) =
      String.intercalate.go b "." ((l2 ++ [p]) ++ [s])
    rw [intercalate_go_append, intercalate_go_append, intercalate_go_append]
    simp [String.append_assoc]

theorem foldl_prepend_attr_path (ps : List String) :
    ∀ s : String,
      (ps.foldl AttributeNullError.prepend_path ⟨s⟩).attr_path =
        String.intercalate "." (ps.reverse ++ [s]) := by
  induction ps with
  | nil => intro s; rfl
  | cons p ps ih =>
    intro s
    show (ps.foldl AttributeNullError.prepend_path ⟨p ++ "." ++ s⟩).attr_path = _
    rw [ih (p ++ "." ++ s), intercalate_dot_snoc, List.reverse_cons]

/-- C4: after constructing `AttributeNullError(a)` and prepending
`p1, ..., pn` in that order, the rendered string is exactly
`Attribute \x27pn. ... .p1.a\x27 cannot be None` — the current path with
the innermost name rightmost, recomputed from `attr_path` at each
rendering; in particular `name` / `user` / `record` renders
`Attribute \x27record.user.name\x27 cannot be None`. -/
theorem C4_attribute_null_error_path (a : String) (ps : List String) :
    (ps.foldl AttributeNullError.prepend_path ⟨a⟩).str =
      "Attribute \x27" ++ String.intercalate "." (ps.reverse ++ [a]) ++
        "\x27 cannot be None"
  ∧ (((⟨"name"⟩ : AttributeNullError).prepend_path "user").prepend_path
        "record").str = "Attribute \x27record.user.name\x27 cannot be None" := by
  constructor
  · show "Attribute \x27" ++
        (ps.foldl AttributeNullError.prepend_path ⟨a⟩).attr_path ++
        "\x27 cannot be None" = _
    rw [foldl_prepend_attr_path]
  · rfl

/-- C5: for every class on which `msg` class-attribute lookup yields a
default `d`, constructing through the base `__init__` with no message
yields exactly `d` as the message, and constructing with an explicit
message yields that message instead; the cause is stored as passed. -/
theorem C5_default_and_explicit_messages (c : PyClass) (d : String)
    (cause : Option PyObject) (h : classMsg c = some d) :
    PynamoDBException.construct c none cause = .ok ⟨d, cause⟩
  ∧ ∀ m, PynamoDBException.construct c (some m) cause = .ok ⟨m, cause⟩ := by
  refine ⟨?_, fun m => rfl⟩
  simp [PynamoDBException.construct, h]

/-- C5 witness: the concrete defaults named by the specification. -/
theorem C5_default_and_explicit_messages_witness :
    PynamoDBException.construct .PynamoDBConnectionError none none =
      .ok ⟨"Connection Error", none⟩
  ∧ PynamoDBException.construct .DoesNotExist none none =
      .ok ⟨"Item does not exist", none⟩
  ∧ PynamoDBException.construct .InvalidStateError none none =
      .ok ⟨"Operation in invalid state", none⟩ :=
  ⟨(C5_default_and_explicit_messages .PynamoDBConnectionError
      "Connection Error" none rfl).1,
   (C5_default_and_explicit_messages .DoesNotExist
      "Item does not exist" none rfl).1,
   (C5_default_and_explicit_messages .InvalidStateError
      "Operation in invalid state" none rfl).1⟩

/-- C6 counterexample: `TransactWriteError` and `TransactGetError` assign no
`msg` class attribute and none of their ancestors does, so constructing
them without an explicit message does not succeed: reading `self.msg` in
the base `__init__` raises `AttributeError`. -/
theorem C6_counterexample_transact_write_no_default :
    PynamoDBException.construct .TransactWriteError none none =
      .error "AttributeError: msg"
  ∧ PynamoDBException.construct .TransactGetError none none =
      .error "AttributeError: msg" :=
  ⟨rfl, rfl⟩

/-- C6 amended: every subtype of the base exception either has a (possibly
inherited) class default message — and then construction with no message
succeeds with exactly that default — or has none (the base itself,
`TransactWriteError`, `TransactGetError`, `TableDoesNotExist`), and then
construction through the base `__init__` with no message raises
`AttributeError`: the message must be supplied by the caller, and doing so
always succeeds. -/
theorem C6_amended_default_or_required_message (c : PyClass)
    (_h : isSubclass c .PynamoDBException = true) :
    (∀ d, classMsg c = some d →
      PynamoDBException.construct c none none = .ok ⟨d, none⟩)
  ∧ (classMsg c = none →
      PynamoDBException.construct c none none = .error "AttributeError: msg")
  ∧ (∀ m, PynamoDBException.construct c (some m) none = .ok ⟨m, none⟩) := by
  refine ⟨fun d hd => ?_, fun hd => ?_, fun m => rfl⟩ <;>
    simp [PynamoDBException.construct, hd]

/-- C6 amended witness: at `TransactWriteError`, construction without a
message raises and construction with a caller-supplied message succeeds. -/
theorem C6_amended_default_or_required_message_witness :
    PynamoDBException.construct .TransactWriteError none none =
      .error "AttributeError: msg"
  ∧ PynamoDBException.construct .TransactWriteError
      (some "Transaction failed") none = .ok ⟨"Transaction failed", none⟩ :=
  ⟨(C6_amended_default_or_required_message .TransactWriteError
      (by decide)).2.1 rfl,
   (C6_amended_default_or_required_message .TransactWriteError
      (by decide)).2.2 "Transaction failed"⟩

/-- C9: the base `__init__` stores the cause exactly as passed — with an
explicit message the entire resulting state is the message and the
untouched cause, and whenever construction succeeds the stored cause is
the object passed in. -/
theorem C9_cause_stored_unchanged (c : PyClass) (m : String)
    (cause : Option PyObject) :
    PynamoDBException.construct c (some m) cause = .ok ⟨m, cause⟩
  ∧ (∀ e, PynamoDBException.construct c none cause = .ok e →
      e.cause = cause) := by
  refine ⟨rfl, fun e he => ?_⟩
  simp only [PynamoDBException.construct] at he
  cases hc : classMsg c with
  | none =>
    rw [hc] at he
    exact Except.noConfusion he
  | some d =>
    rw [hc] at he
    have h2 := Except.ok.inj he
    rw [← h2]

/-- C9 witness: a concrete cause object is stored unchanged both with and
without an explicit message. -/
theorem C9_cause_stored_unchanged_witness :
    PynamoDBException.construct .PutError (some "boom")
        (some ⟨[("response", .pyDict [])]⟩) =
      .ok ⟨"boom", some ⟨[("response", .pyDict [])]⟩⟩
  ∧ (⟨"Error putting item", some ⟨[]⟩⟩ : PynamoDBException).cause =
      some ⟨[]⟩ :=
  ⟨(C9_cause_stored_unchanged .PutError "boom"
      (some ⟨[("response", .pyDict [])]⟩)).1,
   (C9_cause_stored_unchanged .PutError "x" (some ⟨[]⟩)).2
      ⟨"Error putting item", some ⟨[]⟩⟩ rfl⟩

/-- C10: `AttributeDeserializationError` derives from the built-in
`TypeError` and `AttributeNullError` from the built-in `ValueError`;
neither is a subclass of `PynamoDBException`, so an `except` handler for
the base kind catches neither of them (and, in the embedding, their states
carry no `cause` field and no response accessors). -/
theorem C10_attribute_errors_outside_hierarchy :
    isSubclass .AttributeDeserializationError .TypeError = true
  ∧ isSubclass .AttributeNullError .ValueError = true
  ∧ isSubclass .AttributeDeserializationError .PynamoDBException = false
  ∧ isSubclass .AttributeNullError .PynamoDBException = false := by
  decide

end PynamoDB
